import Mathlib

/-!
# Elevator Safety Self-Inspection System — verification of the core engine

Shallow embedding of the Inspection Execution & Safety Analysis Engine:
`SafetyChecklist.run_inspection` / `SafetyChecklist._evaluate_sensor_reading`
(src/inspection/checklist.py) and `SafetyAnalyzer.analyze`
(src/inspection/safety_analyzer.py).

Modelling conventions:
* the status strings `'pass' / 'warning' / 'fail' / 'skipped' / 'error'`
  become the enumeration `Status`;
* numeric sensor values and threshold bounds are rationals;
* the hardware collaborator (`elevator_interface`) is a record of functions
  returning `Except String _`: `Except.error msg` models a raised exception
  whose `str(e)` is `msg`;
* the optional `thresholds` entry of a checklist-item dictionary is an
  `Option Thresholds`; a direct lookup `item['thresholds']` on an item
  without that key raises `KeyError`, whose `str(e)` in CPython is the
  quoted key, modelled by `Except.error keyErrorThresholds`;
* `item.get('category', 'general')` / `item.get('criticality', 'normal')`
  become `Option.getD`;
* timestamps are not modelled (no claim mentions them).
-/

namespace ElevatorSafety

/-- The five result-status strings produced by the engine. -/
inductive Status where
  | pass
  | warning
  | fail
  | skipped
  | error
deriving DecidableEq, Repr

/-- The `thresholds` dictionary of a sensor item: each of the four bound
keys may be present or absent (`'min_critical' in thresholds` tests). -/
structure Thresholds where
  min_critical : Option ℚ
  max_critical : Option ℚ
  min_warning : Option ℚ
  max_warning : Option ℚ
deriving DecidableEq, Repr

/-- A raw observed value: a numeric sensor reading, the fixed placeholder
string of a visual check, or the boolean of a mechanical self-test. -/
inductive Value where
  | num (q : ℚ)
  | str (s : String)
  | boolean (b : Bool)
deriving DecidableEq, Repr

/-- One checklist item, as loaded from configuration.  `id`, `name` and
`type` are required keys (they are read unconditionally); `thresholds`,
`category` and `criticality` are optional dictionary entries. -/
structure ChecklistItem where
  id : String
  name : String
  itemType : String
  sensor_id : String
  component_id : String
  thresholds : Option Thresholds
  category : Option String
  criticality : Option String
deriving DecidableEq, Repr

/-- The hardware collaborator consumed by the Executor.  `Except.error msg`
models a call that raises an exception with description `msg`. -/
structure ElevatorInterface where
  get_sensor_reading : String → Except String ℚ
  test_mechanical_component : String → Except String Bool

/-- One per-item inspection result dictionary built by `run_inspection`. -/
structure CheckResult where
  item_id : String
  name : String
  resultType : String
  value : Option Value
  status : Status
  category : String
  criticality : String
  error : Option String
deriving DecidableEq, Repr

/-- `str(KeyError('thresholds'))` as raised by `item['thresholds']`. -/
def keyErrorThresholds : String := "\x27thresholds\x27"

/-- `SafetyChecklist._evaluate_sensor_reading` (checklist.py, lines 88-107):
four guarded early returns, checked in source order, then `'pass'`.  Each
guard is `'key' in thresholds and value <op> thresholds['key']`. -/
def evaluate_sensor_reading (value : ℚ) (thresholds : Thresholds) : Status :=
  if thresholds.min_critical.any fun b => decide (value < b) then .fail
  else if thresholds.max_critical.any fun b => decide (value > b) then .fail
  else if thresholds.min_warning.any fun b => decide (value < b) then .warning
  else if thresholds.max_warning.any fun b => decide (value > b) then .warning
  else .pass

/-- The body of the `try` block of one loop iteration of `run_inspection`
(checklist.py, lines 40-56): dispatch on `item['type']`, returning the
`(value, status)` pair on success and the exception description when a
hardware call or the `item['thresholds']` lookup raises. -/
def check_item (hw : ElevatorInterface) (item : ChecklistItem) :
    Except String (Option Value × Status) :=
  if item.itemType = "sensor" then
    match hw.get_sensor_reading item.sensor_id with
    | .error e => .error e
    | .ok v =>
      match item.thresholds with
      | none => .error keyErrorThresholds
      | some t => .ok (some (.num v), evaluate_sensor_reading v t)
  else if item.itemType = "visual" then
    .ok (some (.str "SIMULATED VISUAL INSPECTION"), .pass)
  else if item.itemType = "mechanical" then
    match hw.test_mechanical_component item.component_id with
    | .error e => .error e
    | .ok b => .ok (some (.boolean b), if b then .pass else .fail)
  else
    .ok (none, .skipped)

/-- One full loop iteration of `run_inspection` (checklist.py, lines
37-84): on success the result dictionary of lines 58-67, on an exception
the error result of lines 74-84. -/
def run_item (hw : ElevatorInterface) (item : ChecklistItem) : CheckResult :=
  match check_item hw item with
  | .ok (v, s) =>
    { item_id := item.id
      name := item.name
      resultType := item.itemType
      value := v
      status := s
      category := item.category.getD "general"
      criticality := item.criticality.getD "normal"
      error := none }
  | .error e =>
    { item_id := item.id
      name := item.name
      resultType := item.itemType
      value := none
      status := .error
      category := item.category.getD "general"
      criticality := item.criticality.getD "normal"
      error := some e }

/-- `SafetyChecklist.run_inspection` (checklist.py, lines 25-86): the loop
appends exactly one result per item (one in the `try` body, or one in the
`except` handler), in checklist order. -/
def run_inspection (items : List ChecklistItem) (hw : ElevatorInterface) :
    List CheckResult :=
  items.map (run_item hw)

/-- An entry of `critical_items` / `warning_items` (safety_analyzer.py,
lines 49-53 and 56-60): `{'name', 'value', 'category'}`. -/
structure IssueItem where
  name : String
  value : Option Value
  category : String
deriving DecidableEq, Repr

/-- An entry of `error_items` (safety_analyzer.py, lines 65-69):
`{'name', 'error', 'category'}` with `result.get('error', 'Unknown error')`. -/
structure ErrorItem where
  name : String
  err : String
  category : String
deriving DecidableEq, Repr

/-- The accumulator state of the tally loop of `SafetyAnalyzer.analyze`
(safety_analyzer.py, lines 35-43). -/
structure Tally where
  critical_issues : ℕ
  warnings : ℕ
  passed : ℕ
  errors : ℕ
  critical_items : List IssueItem
  warning_items : List IssueItem
  error_items : List ErrorItem
deriving DecidableEq, Repr

/-- The issue projection `{'name': ..., 'value': ..., 'category': result.get('category', 'general')}`;
results built by the Executor always carry `category`, so the `get`
default never fires there. -/
def issue_of (r : CheckResult) : IssueItem :=
  { name := r.name, value := r.value, category := r.category }

/-- The error projection `{'name': ..., 'error': result.get('error', 'Unknown error'), 'category': ...}`. -/
def error_item_of (r : CheckResult) : ErrorItem :=
  { name := r.name, err := r.error.getD "Unknown error", category := r.category }

/-- One iteration of the tally loop of `analyze` (safety_analyzer.py,
lines 46-69): an `if/elif` chain on `result['status']`; `skipped` results
match no branch and leave the accumulator unchanged. -/
def tally_step (t : Tally) (r : CheckResult) : Tally :=
  if r.status = .fail then
    { t with critical_issues := t.critical_issues + 1
             critical_items := t.critical_items ++ [issue_of r] }
  else if r.status = .warning then
    { t with warnings := t.warnings + 1
             warning_items := t.warning_items ++ [issue_of r] }
  else if r.status = .pass then
    { t with passed := t.passed + 1 }
  else if r.status = .error then
    { t with errors := t.errors + 1
             error_items := t.error_items ++ [error_item_of r] }
  else t

/-- The zeroed accumulator of safety_analyzer.py, lines 35-43. -/
def tally_start : Tally :=
  { critical_issues := 0, warnings := 0, passed := 0, errors := 0
    critical_items := [], warning_items := [], error_items := [] }

/-- The analysis dictionary returned by `analyze` (safety_analyzer.py,
lines 94-107). -/
structure SafetyVerdict where
  summary : String
  safety_level : String
  action_required : String
  critical_issues : ℕ
  warnings : ℕ
  passed : ℕ
  errors : ℕ
  compliance_percentage : ℚ
  critical_items : List IssueItem
  warning_items : List IssueItem
  error_items : List ErrorItem
  total_checks : ℕ
deriving DecidableEq, Repr

/-- `SafetyAnalyzer.analyze` (safety_analyzer.py, lines 24-112): tally the
results, pick `(summary, action_required, safety_level)` by the `if/elif`
precedence chain of lines 72-87, and compute `compliance_percentage` with
the guarded division of lines 90-91. -/
def analyze (inspection_results : List CheckResult) : SafetyVerdict :=
  let t := inspection_results.foldl tally_step tally_start
  let summary :=
    if t.critical_issues > 0 then "UNSAFE - Critical issues detected"
    else if t.warnings > 0 then "CAUTION - Warnings detected"
    else if t.errors > 0 then "INCOMPLETE - Inspection errors"
    else "SAFE - All checks passed"
  let action_required :=
    if t.critical_issues > 0 then
      "Immediate maintenance required. Elevator should not be used until fixed."
    else if t.warnings > 0 then "Schedule maintenance soon to address warnings."
    else if t.errors > 0 then "Some tests failed to complete. Re-inspection recommended."
    else "Regular maintenance schedule can be followed."
  let safety_level :=
    if t.critical_issues > 0 then "critical"
    else if t.warnings > 0 then "warning"
    else if t.errors > 0 then "incomplete"
    else "safe"
  let total_checks := t.critical_issues + t.warnings + t.passed
  let compliance_percentage : ℚ :=
    if total_checks > 0 then (t.passed : ℚ) / (total_checks : ℚ) * 100 else 0
  { summary := summary
    safety_level := safety_level
    action_required := action_required
    critical_issues := t.critical_issues
    warnings := t.warnings
    passed := t.passed
    errors := t.errors
    compliance_percentage := compliance_percentage
    critical_items := t.critical_items
    warning_items := t.warning_items
    error_items := t.error_items
    total_checks := inspection_results.length }

/-! ## Specification-side vocabulary -/

/-- `r['status'] == s` as a Boolean predicate. -/
def has_status (s : Status) (r : CheckResult) : Bool :=
  decide (r.status = s)

/-- Number of results carrying status `s`. -/
def countStatus (s : Status) (rs : List CheckResult) : ℕ :=
  rs.countP (has_status s)

/-- Modelled from the spec: the threshold-evaluation algorithm of §4.1,
steps 1-5, written as a case split on whether each bound key is set.
Used only to compare against the source-derived `evaluate_sensor_reading`. -/
def min_bound_violated (o : Option ℚ) (v : ℚ) : Bool :=
  match o with
  | none => false
  | some b => decide (v < b)

/-- Modelled from the spec: "is set and `value > bound`". -/
def max_bound_violated (o : Option ℚ) (v : ℚ) : Bool :=
  match o with
  | none => false
  | some b => decide (v > b)

/-- Modelled from the spec: the five-step chain of §4.1 in the spec's own
words (minCritical, maxCritical, minWarning, maxWarning, else pass). -/
def threshold_eval_spec (v : ℚ) (t : Thresholds) : Status :=
  if min_bound_violated t.min_critical v then .fail
  else if max_bound_violated t.max_critical v then .fail
  else if min_bound_violated t.min_warning v then .warning
  else if max_bound_violated t.max_warning v then .warning
  else .pass

/-- The hardware collaborator raises an exception with description `msg`
while `item` is being processed: a sensor read failure on a sensor item,
or a mechanical self-test failure on a mechanical item. -/
def hw_raises (hw : ElevatorInterface) (item : ChecklistItem) (msg : String) : Prop :=
  (item.itemType = "sensor" ∧ hw.get_sensor_reading item.sensor_id = .error msg)
  ∨ (item.itemType = "mechanical" ∧ hw.test_mechanical_component item.component_id = .error msg)

/-- A thresholds record with no bound key present (`{}` in the source). -/
def empty_thresholds : Thresholds :=
  { min_critical := none, max_critical := none
    min_warning := none, max_warning := none }

/-! ## Concrete fixtures used by witnesses and counterexamples -/

/-- Hardware whose sensor reads always fail with "Sensor error". -/
def hwSensorDown : ElevatorInterface :=
  { get_sensor_reading := fun _ => .error "Sensor error"
    test_mechanical_component := fun _ => .ok true }

/-- Hardware whose sensor reads always return 30. -/
def hwReads30 : ElevatorInterface :=
  { get_sensor_reading := fun _ => .ok 30
    test_mechanical_component := fun _ => .ok true }

/-- A sensor item with a thresholds record present. -/
def itemSensorTh : ChecklistItem :=
  { id := "door_sensor", name := "Door Sensor", itemType := "sensor"
    sensor_id := "s1", component_id := ""
    thresholds := some { min_critical := some 10, max_critical := some 70
                         min_warning := some 20, max_warning := some 50 }
    category := some "door", criticality := some "high" }

/-- A sensor item whose `thresholds` key is entirely absent. -/
def itemSensorNoTh : ChecklistItem :=
  { id := "speed_sensor", name := "Speed Sensor", itemType := "sensor"
    sensor_id := "s2", component_id := ""
    thresholds := none, category := none, criticality := none }

/-- A visual item. -/
def itemVisual : ChecklistItem :=
  { id := "cab_visual", name := "Cab Visual", itemType := "visual"
    sensor_id := "", component_id := ""
    thresholds := none, category := some "cab", criticality := none }

/-- An item of a kind the dispatcher does not recognize. -/
def itemUnknownKind : ChecklistItem :=
  { id := "elec", name := "Electrical", itemType := "electrical"
    sensor_id := "", component_id := ""
    thresholds := none, category := none, criticality := none }

/-- A sensor item with an empty thresholds record present. -/
def itemSensorEmptyTh : ChecklistItem :=
  { id := "temp_sensor", name := "Temp Sensor", itemType := "sensor"
    sensor_id := "s3", component_id := ""
    thresholds := some empty_thresholds, category := none, criticality := none }

/-- A thresholds record with all four bound keys present. -/
def thFull : Thresholds :=
  { min_critical := some 10, max_critical := some 70
    min_warning := some 20, max_warning := some 50 }

/-- A failing check result, as the Executor would emit it. -/
def resultFail : CheckResult :=
  { item_id := "door_sensor", name := "Door Sensor", resultType := "sensor"
    value := some (.num 80), status := .fail
    category := "door", criticality := "high", error := none }

/-- A warning check result. -/
def resultWarning : CheckResult :=
  { item_id := "door_sensor", name := "Door Sensor", resultType := "sensor"
    value := some (.num 55), status := .warning
    category := "door", criticality := "high", error := none }

/-- A passing check result. -/
def resultPass : CheckResult :=
  { item_id := "cab_visual", name := "Cab Visual", resultType := "visual"
    value := some (.str "SIMULATED VISUAL INSPECTION"), status := .pass
    category := "cab", criticality := "normal", error := none }

/-- An error check result. -/
def resultError : CheckResult :=
  { item_id := "speed_sensor", name := "Speed Sensor", resultType := "sensor"
    value := none, status := .error
    category := "general", criticality := "normal", error := some "Sensor error" }

/-! ## Helper lemmas -/

/-- The tally loop of `analyze`, characterized: each counter counts its
status, each issue list is the order-preserving filter-projection. -/
lemma foldl_tally_spec (rs : List CheckResult) (t : Tally) :
    rs.foldl tally_step t =
      { critical_issues := t.critical_issues + countStatus .fail rs
        warnings := t.warnings + countStatus .warning rs
        passed := t.passed + countStatus .pass rs
        errors := t.errors + countStatus .error rs
        critical_items := t.critical_items ++ (rs.filter (has_status .fail)).map issue_of
        warning_items := t.warning_items ++ (rs.filter (has_status .warning)).map issue_of
        error_items := t.error_items ++ (rs.filter (has_status .error)).map error_item_of } := by
  induction rs generalizing t with
  | nil => simp [countStatus]
  | cons r rs ih =>
    rw [List.foldl_cons, ih]
    cases hr : r.status <;>
      simp [tally_step, hr, countStatus, has_status, List.countP_cons, List.filter_cons] <;>
      omega

/-- `analyze` in closed form: every field of the verdict expressed through
status counts and order-preserving filters of the input. -/
lemma analyze_closed (rs : List CheckResult) :
    analyze rs =
      { summary :=
          if 0 < countStatus .fail rs then "UNSAFE - Critical issues detected"
          else if 0 < countStatus .warning rs then "CAUTION - Warnings detected"
          else if 0 < countStatus .error rs then "INCOMPLETE - Inspection errors"
          else "SAFE - All checks passed"
        safety_level :=
          if 0 < countStatus .fail rs then "critical"
          else if 0 < countStatus .warning rs then "warning"
          else if 0 < countStatus .error rs then "incomplete"
          else "safe"
        action_required :=
          if 0 < countStatus .fail rs then
            "Immediate maintenance required. Elevator should not be used until fixed."
          else if 0 < countStatus .warning rs then
            "Schedule maintenance soon to address warnings."
          else if 0 < countStatus .error rs then
            "Some tests failed to complete. Re-inspection recommended."
          else "Regular maintenance schedule can be followed."
        critical_issues := countStatus .fail rs
        warnings := countStatus .warning rs
        passed := countStatus .pass rs
        errors := countStatus .error rs
        compliance_percentage :=
          if 0 < countStatus .fail rs + countStatus .warning rs + countStatus .pass rs then
            (countStatus .pass rs : ℚ) /
              ((countStatus .fail rs + countStatus .warning rs + countStatus .pass rs : ℕ) : ℚ) * 100
          else 0
        critical_items := (rs.filter (has_status .fail)).map issue_of
        warning_items := (rs.filter (has_status .warning)).map issue_of
        error_items := (rs.filter (has_status .error)).map error_item_of
        total_checks := rs.length } := by
  unfold analyze
  rw [foldl_tally_spec]
  simp [tally_start]

/-- The five statuses partition the result list. -/
lemma countStatus_partition (rs : List CheckResult) :
    countStatus .fail rs + countStatus .warning rs + countStatus .pass rs
      + countStatus .error rs + countStatus .skipped rs = rs.length := by
  induction rs with
  | nil => simp [countStatus]
  | cons r rs ih =>
    cases hr : r.status <;>
      simp only [countStatus, has_status, List.countP_cons, hr, List.length_cons] at ih ⊢ <;>
      simp <;> omega

/-! ## Claim theorems -/

/-- C1: the Analyzer's safety level follows the fixed precedence chain
fail-count > 0 → critical, else warning-count > 0 → warning, else
error-count > 0 → incomplete, else safe; in particular any result set
with at least one `fail` is classified `critical` (with the UNSAFE
summary) no matter what else coexists. -/
theorem analyze_safety_level_precedence (rs : List CheckResult) :
    ((analyze rs).safety_level =
        if 0 < countStatus .fail rs then "critical"
        else if 0 < countStatus .warning rs then "warning"
        else if 0 < countStatus .error rs then "incomplete"
        else "safe")
    ∧ (0 < countStatus .fail rs →
        (analyze rs).safety_level = "critical" ∧
        (analyze rs).summary = "UNSAFE - Critical issues detected") := by
  rw [analyze_closed]
  refine ⟨rfl, fun h => ?_⟩
  simp [h]

/-- Witness for C1: a result set holding one of each of fail, warning,
error and pass is classified critical with the UNSAFE summary. -/
theorem analyze_safety_level_precedence_witness :
    0 < countStatus .fail [resultFail, resultWarning, resultError, resultPass]
    ∧ (analyze [resultFail, resultWarning, resultError, resultPass]).safety_level = "critical"
    ∧ (analyze [resultFail, resultWarning, resultError, resultPass]).summary
        = "UNSAFE - Critical issues detected" := by
  have h := (analyze_safety_level_precedence
    [resultFail, resultWarning, resultError, resultPass]).2 (by decide)
  exact ⟨by decide, h.1, h.2⟩

/-- C5: `compliance_percentage` is `passed / (critical_issues + warnings +
passed) * 100` when that denominator is positive and exactly 0 otherwise;
the three counts involved count exactly the fail, warning and pass
statuses, so error and skipped results are excluded from the denominator. -/
theorem analyze_compliance_formula (rs : List CheckResult) :
    ((analyze rs).compliance_percentage =
        if 0 < (analyze rs).critical_issues + (analyze rs).warnings + (analyze rs).passed then
          ((analyze rs).passed : ℚ) /
            (((analyze rs).critical_issues + (analyze rs).warnings + (analyze rs).passed : ℕ) : ℚ)
            * 100
        else 0)
    ∧ (analyze rs).critical_issues = countStatus .fail rs
    ∧ (analyze rs).warnings = countStatus .warning rs
    ∧ (analyze rs).passed = countStatus .pass rs := by
  rw [analyze_closed]
  exact ⟨rfl, rfl, rfl, rfl⟩

/-- C9: the three issue lists are the order-preserving filters of the
input, projected to their dictionary shape; each list's length equals the
corresponding count; errors count the `error` status; `total_checks` is
the full input length; and the five status counts partition the input, so
a skipped result is counted only in `total_checks`. -/
theorem analyze_item_lists (rs : List CheckResult) :
    (analyze rs).critical_items = (rs.filter (has_status .fail)).map issue_of
    ∧ (analyze rs).warning_items = (rs.filter (has_status .warning)).map issue_of
    ∧ (analyze rs).error_items = (rs.filter (has_status .error)).map error_item_of
    ∧ (analyze rs).critical_items.length = (analyze rs).critical_issues
    ∧ (analyze rs).warning_items.length = (analyze rs).warnings
    ∧ (analyze rs).error_items.length = (analyze rs).errors
    ∧ (analyze rs).errors = countStatus .error rs
    ∧ (analyze rs).total_checks = rs.length
    ∧ countStatus .fail rs + countStatus .warning rs + countStatus .pass rs
        + countStatus .error rs + countStatus .skipped rs = rs.length := by
  rw [analyze_closed]
  refine ⟨rfl, rfl, rfl, ?_, ?_, ?_, rfl, rfl, countStatus_partition rs⟩ <;>
    simp [countStatus, List.countP_eq_length_filter]

/-- C10: the compliance percentage always lies in [0, 100]. -/
theorem compliance_percentage_bounds (rs : List CheckResult) :
    0 ≤ (analyze rs).compliance_percentage ∧ (analyze rs).compliance_percentage ≤ 100 := by
  rw [analyze_closed]
  dsimp only
  by_cases h : 0 < countStatus .fail rs + countStatus .warning rs + countStatus .pass rs
  · rw [if_pos h]
    have hle : ((countStatus .pass rs : ℕ) : ℚ) ≤
        ((countStatus .fail rs + countStatus .warning rs + countStatus .pass rs : ℕ) : ℚ) := by
      exact_mod_cast Nat.le_add_left _ _
    have hpos : (0 : ℚ) <
        ((countStatus .fail rs + countStatus .warning rs + countStatus .pass rs : ℕ) : ℚ) := by
      exact_mod_cast h
    constructor
    · positivity
    · have h1 : ((countStatus .pass rs : ℕ) : ℚ) /
          ((countStatus .fail rs + countStatus .warning rs + countStatus .pass rs : ℕ) : ℚ) ≤ 1 :=
        div_le_one_of_le₀ hle (le_of_lt hpos)
      calc ((countStatus .pass rs : ℕ) : ℚ) /
            ((countStatus .fail rs + countStatus .warning rs + countStatus .pass rs : ℕ) : ℚ)
            * 100 ≤ 1 * 100 := by
              exact mul_le_mul_of_nonneg_right h1 (by norm_num)
        _ = 100 := by norm_num
  · rw [if_neg h]
    norm_num

/-- `evaluate_sensor_reading` only produces pass, warning or fail. -/
lemma evaluate_sensor_reading_ne_error (v : ℚ) (t : Thresholds) :
    evaluate_sensor_reading v t ≠ .error := by
  unfold evaluate_sensor_reading
  split_ifs <;> simp

/-- C2: the run emits exactly one result per checklist item — the output
has the input's length — and the result at every position is the
processing of the item at the same position, so result order equals
input order. -/
theorem run_inspection_length_and_order (items : List ChecklistItem) (hw : ElevatorInterface) :
    (run_inspection items hw).length = items.length
    ∧ ∀ i : ℕ, (run_inspection items hw)[i]? = (items[i]?).map (run_item hw) := by
  refine ⟨by simp [run_inspection], fun i => ?_⟩
  simp [run_inspection]

/-- C3: a hardware failure raised while one item is processed yields, for
that item, a result with status error and the failure description in the
error field, while every position of the output still holds the
stand-alone processing of its own item — the run is never aborted. -/
theorem hardware_failure_isolated (items : List ChecklistItem) (hw : ElevatorInterface)
    (i : ℕ) (msg : String) (hi : i < items.length)
    (hfail : hw_raises hw items[i] msg) :
    ((run_inspection items hw)[i]? = some (run_item hw items[i])
      ∧ (run_item hw items[i]).status = .error
      ∧ (run_item hw items[i]).error = some msg)
    ∧ ∀ j : ℕ, (run_inspection items hw)[j]? = (items[j]?).map (run_item hw) := by
  refine ⟨⟨?_, ?_, ?_⟩, fun j => by simp [run_inspection]⟩
  · simp [run_inspection, List.getElem?_eq_getElem, hi]
  all_goals
    rcases hfail with ⟨hk, hr⟩ | ⟨hk, hr⟩ <;>
      simp [run_item, check_item, hk, hr]

/-- Witness for C3: with a hardware handle whose sensor reads raise
"Sensor error", a two-item checklist still yields two results — the
sensor item errored with the message, the visual item passing. -/
theorem hardware_failure_isolated_witness :
    hw_raises hwSensorDown itemSensorTh "Sensor error"
    ∧ (run_inspection [itemSensorTh, itemVisual] hwSensorDown)[0]?.map CheckResult.status
        = some Status.error
    ∧ (run_inspection [itemSensorTh, itemVisual] hwSensorDown)[0]?.map CheckResult.error
        = some (some "Sensor error")
    ∧ (run_inspection [itemSensorTh, itemVisual] hwSensorDown)[1]?.map CheckResult.status
        = some Status.pass := by
  have hfail : hw_raises hwSensorDown
      (([itemSensorTh, itemVisual] : List ChecklistItem)[0]) "Sensor error" :=
    Or.inl ⟨rfl, rfl⟩
  have h := hardware_failure_isolated [itemSensorTh, itemVisual] hwSensorDown 0 "Sensor error"
    (by decide) hfail
  refine ⟨hfail, ?_, ?_, ?_⟩
  · rw [h.1.1]
    simpa using h.1.2.1
  · rw [h.1.1]
    simpa using h.1.2.2
  · rw [h.2 1]
    rfl

/-- C4: threshold evaluation coincides with the spec's five-step chain
(minCritical, maxCritical, minWarning, maxWarning, else pass, first
violated bound wins), and whenever a critical bound is violated the
status is fail — never warning — even if warning bounds are violated
too.  Determinism holds because `evaluate_sensor_reading` is a function
of `(value, thresholds)` alone. -/
theorem threshold_eval_order (v : ℚ) (t : Thresholds) :
    evaluate_sensor_reading v t = threshold_eval_spec v t
    ∧ ((min_bound_violated t.min_critical v || max_bound_violated t.max_critical v) = true →
        evaluate_sensor_reading v t = .fail) := by
  have hmin : ∀ o : Option ℚ, (o.any fun b => decide (v < b)) = min_bound_violated o v := by
    intro o; cases o <;> rfl
  have hmax : ∀ o : Option ℚ, (o.any fun b => decide (v > b)) = max_bound_violated o v := by
    intro o; cases o <;> rfl
  have heq : evaluate_sensor_reading v t = threshold_eval_spec v t := by
    unfold evaluate_sensor_reading threshold_eval_spec
    rw [hmin, hmax, hmin, hmax]
  refine ⟨heq, fun h => ?_⟩
  rw [heq]
  unfold threshold_eval_spec
  rw [Bool.or_eq_true] at h
  rcases h with h1 | h2
  · simp [h1]
  · by_cases h1 : min_bound_violated t.min_critical v <;> simp [h1, h2]

/-- Witness for C4: the value 5 violates both the critical minimum 10 and
the warning minimum 20 of `thFull`; the status is fail, not warning. -/
theorem threshold_eval_order_witness :
    (min_bound_violated thFull.min_critical 5 || max_bound_violated thFull.max_critical 5) = true
    ∧ min_bound_violated thFull.min_warning 5 = true
    ∧ evaluate_sensor_reading 5 thFull = .fail := by
  refine ⟨by decide, by decide, (threshold_eval_order 5 thFull).2 (by decide)⟩

/-- C7: with an empty thresholds record every value evaluates to pass;
in particular `evaluate(100, \x7b\x7d) = pass`.  Absent bound keys cause
no check at all. -/
theorem empty_thresholds_always_pass :
    (∀ v : ℚ, evaluate_sensor_reading v empty_thresholds = .pass)
    ∧ evaluate_sensor_reading 100 empty_thresholds = .pass :=
  ⟨fun _ => rfl, rfl⟩

/-- C8: an item whose kind is none of sensor, visual, mechanical gets a
result with status skipped, absent value, and no error message. -/
theorem unrecognized_kind_skipped (item : ChecklistItem) (hw : ElevatorInterface)
    (h1 : item.itemType ≠ "sensor") (h2 : item.itemType ≠ "visual")
    (h3 : item.itemType ≠ "mechanical") :
    (run_item hw item).status = .skipped
    ∧ (run_item hw item).value = none
    ∧ (run_item hw item).error = none := by
  simp [run_item, check_item, h1, h2, h3]

/-- Witness for C8: an item of kind "electrical" is skipped, with no value
and no error message. -/
theorem unrecognized_kind_skipped_witness :
    itemUnknownKind.itemType ≠ "sensor"
    ∧ itemUnknownKind.itemType ≠ "visual"
    ∧ itemUnknownKind.itemType ≠ "mechanical"
    ∧ (run_item hwReads30 itemUnknownKind).status = .skipped
    ∧ (run_item hwReads30 itemUnknownKind).value = none
    ∧ (run_item hwReads30 itemUnknownKind).error = none := by
  have h := unrecognized_kind_skipped itemUnknownKind hwReads30
    (by decide) (by decide) (by decide)
  exact ⟨by decide, by decide, by decide, h.1, h.2.1, h.2.2⟩

/-- Counterexample to C6 as stated: a sensor item whose `thresholds` key
is entirely absent gets status error (with the `KeyError` text) even
though the hardware read succeeded — the successfully read value does
not yield a non-error status. -/
theorem missing_thresholds_error_cex :
    itemSensorNoTh.itemType = "sensor"
    ∧ itemSensorNoTh.thresholds = none
    ∧ hwReads30.get_sensor_reading itemSensorNoTh.sensor_id = .ok 30
    ∧ (run_item hwReads30 itemSensorNoTh).status = Status.error
    ∧ (run_item hwReads30 itemSensorNoTh).error = some keyErrorThresholds :=
  ⟨rfl, rfl, rfl, rfl, rfl⟩

/-- C6 amended: when the thresholds record is present — any subset of the
four bound keys, including none of them — a successfully read sensor
value yields a non-error status (the threshold verdict) with no error
message; only an entirely absent thresholds field produces the caught
lookup failure shown in the counterexample. -/
theorem sensor_thresholds_present_non_error (item : ChecklistItem) (hw : ElevatorInterface)
    (v : ℚ) (t : Thresholds)
    (hk : item.itemType = "sensor")
    (hr : hw.get_sensor_reading item.sensor_id = .ok v)
    (ht : item.thresholds = some t) :
    (run_item hw item).status = evaluate_sensor_reading v t
    ∧ (run_item hw item).status ≠ .error
    ∧ (run_item hw item).error = none := by
  have hs : (run_item hw item).status = evaluate_sensor_reading v t := by
    simp [run_item, check_item, hk, hr, ht]
  refine ⟨hs, ?_, ?_⟩
  · rw [hs]
    exact evaluate_sensor_reading_ne_error v t
  · simp [run_item, check_item, hk, hr, ht]

/-- Witness for the amended C6: a sensor item whose thresholds record is
present but empty, read as 30, gets the non-error status pass. -/
theorem sensor_thresholds_present_non_error_witness :
    itemSensorEmptyTh.itemType = "sensor"
    ∧ hwReads30.get_sensor_reading itemSensorEmptyTh.sensor_id = .ok 30
    ∧ itemSensorEmptyTh.thresholds = some empty_thresholds
    ∧ (run_item hwReads30 itemSensorEmptyTh).status = evaluate_sensor_reading 30 empty_thresholds
    ∧ (run_item hwReads30 itemSensorEmptyTh).status ≠ .error
    ∧ (run_item hwReads30 itemSensorEmptyTh).error = none := by
  have h := sensor_thresholds_present_non_error itemSensorEmptyTh hwReads30 30 empty_thresholds
    rfl rfl rfl
  exact ⟨rfl, rfl, rfl, h.1, h.2.1, h.2.2⟩

end ElevatorSafety
